import Mathlib

/-!
Shallow embedding of the lifecycle/health/retry core of the
immuno-warriors backend: the fixed-attempt fixed-delay retry loop shared
by healthCheck (src/app.js) and FirebaseService.retryConnect, Firebase
initialization with credential validation, the graceful-shutdown signal
handlers, and the uncaught-fault / unhandled-rejection handlers.
-/

/-- A JavaScript Error value, reduced to its message string. -/
structure JsError where
  message : String
deriving DecidableEq, Repr

/-- AppError(statusCode, message, details) from utils/errorUtils as used by
FirebaseService: an HTTP-style status code, a human-readable message, and a
details string carrying the underlying cause. -/
structure AppError where
  statusCode : Nat
  message : String
  details : String
deriving DecidableEq, Repr

/-- Final outcome of one run of the retry loop.  Besides ordinary success
and failure, the two loops diverge when the loop body never runs
(maxRetries below 1): healthCheck then reads lastError.message with
lastError still null (a TypeError), while retryConnect executes
`throw lastError` with lastError still null (it throws null). -/
inductive RetryOutcome (E A : Type) where
  | success : A → RetryOutcome E A
  | failure : E → RetryOutcome E A
  | nullErrorDeref : RetryOutcome E A
  | threwNull : RetryOutcome E A
deriving DecidableEq, Repr

/-- True exactly on the two intended outcomes of the retry loop:
success, or rethrow of the last operation error. -/
def RetryOutcome.isSettled {E A : Type} : RetryOutcome E A → Bool
  | RetryOutcome.success _ => true
  | RetryOutcome.failure _ => true
  | _ => false

/-- Observable trace of a retry-loop run: final outcome, how many times the
operation was invoked, and the list of inter-attempt delays (in ms) that
were awaited, in order. -/
structure RetryTrace (E A : Type) where
  result : RetryOutcome E A
  invocations : Nat
  delays : List Nat
deriving DecidableEq, Repr

/-- The body of the retry loop, recursing on the number of remaining
attempts.  `attempt` is the 1-based attempt counter; `lastError` is the
mutable lastError variable; a delay of `delayMs` is awaited after a failed
attempt only when further attempts remain (the `attempt < maxRetries`
test).  When attempts are exhausted the loop falls through to the
post-loop code, which rethrows lastError, and whose behaviour when
lastError is still null is the caller-supplied `emptyOut`. -/
def retryGo {E A : Type} (emptyOut : RetryOutcome E A) (op : Nat → Except E A)
    (delayMs : Nat) (attempt remaining : Nat) (lastError : Option E) : RetryTrace E A :=
  match remaining with
  | 0 =>
    match lastError with
    | some e => ⟨RetryOutcome.failure e, 0, []⟩
    | none => ⟨emptyOut, 0, []⟩
  | Nat.succ r =>
    match op attempt with
    | Except.ok a => ⟨RetryOutcome.success a, 1, []⟩
    | Except.error e =>
      let rest := retryGo emptyOut op delayMs (attempt + 1) r (some e)
      ⟨rest.result, rest.invocations + 1,
        if 0 < r then delayMs :: rest.delays else rest.delays⟩

/-- The retry loop shared (textually duplicated) by healthCheck in
src/app.js and FirebaseService.retryConnect: `for (attempt = 1; attempt <=
maxRetries; attempt++) { try op; on success return; on failure record
lastError and, if attempt < maxRetries, await delayMs } ; throw lastError`. -/
def retryLoop {E A : Type} (emptyOut : RetryOutcome E A) (op : Nat → Except E A)
    (maxRetries delayMs : Nat) : RetryTrace E A :=
  retryGo emptyOut op delayMs 1 maxRetries none

/-- The fixed list of required environment variables checked by
healthCheck (src/app.js line 39). -/
def requiredEnvVars : List String :=
  ["PORT", "JWT_SECRET", "GEMINI_API_KEY", "FIREBASE_PROJECT_ID"]

/-- JavaScript falsiness for an environment/config string value:
`!x` is true when the variable is undefined or the empty string. -/
def isFalsy : Option String → Bool
  | none => true
  | some s => s.isEmpty

/-- The missing environment variables, as computed by
`requiredEnvVars.filter(varName => !process.env[varName])`. -/
def missingVars (env : String → Option String) : List String :=
  requiredEnvVars.filter (fun v => isFalsy (env v))

/-- Behaviour of the Firestore store as seen by one healthCheck attempt:
whether the status/health_check write resolves and whether
listCollections resolves, per 1-based attempt number. -/
structure HealthStore where
  setHealthCheck : Nat → Except JsError Unit
  listCollections : Nat → Except JsError (List String)

/-- One attempt of the startup health check (the body of the try block in
healthCheck, src/app.js lines 35-59): check the required environment
variables (throwing a configuration Error naming all missing ones), then
perform the Firestore write test, then list collections, then return
true. -/
def healthCheckOp (env : String → Option String) (store : HealthStore)
    (attempt : Nat) : Except JsError Bool :=
  let missing := missingVars env
  if missing.isEmpty then
    match store.setHealthCheck attempt with
    | Except.error e => Except.error e
    | Except.ok _ =>
      match store.listCollections attempt with
      | Except.error e => Except.error e
      | Except.ok _ => Except.ok true
  else
    Except.error ⟨"Missing environment variables: " ++ String.intercalate ", " missing⟩

/-- healthCheck(maxRetries, delayMs) from src/app.js (defaults 3, 5000):
the retry loop over healthCheckOp; after an exhausted loop it reads
lastError.message, so a run with an empty loop ends in nullErrorDeref. -/
def healthCheck (env : String → Option String) (store : HealthStore)
    (maxRetries delayMs : Nat) : RetryTrace JsError Bool :=
  retryLoop RetryOutcome.nullErrorDeref (healthCheckOp env store) maxRetries delayMs

/-- FirebaseService.verifyConnection: a probe write to
status/connection_test; a store rejection is wrapped into
AppError(500, "Impossible de se connecter à Firestore", cause). -/
def verifyConnection (probe : Nat → Except JsError Unit) (attempt : Nat) :
    Except AppError Unit :=
  match probe attempt with
  | Except.ok _ => Except.ok ()
  | Except.error e =>
    Except.error ⟨500, "Impossible de se connecter à Firestore", e.message⟩

/-- One attempt of retryConnect: await verifyConnection, then return true. -/
def retryConnectOp (probe : Nat → Except JsError Unit) (attempt : Nat) :
    Except AppError Bool :=
  match verifyConnection probe attempt with
  | Except.ok _ => Except.ok true
  | Except.error e => Except.error e

/-- FirebaseService.retryConnect(maxRetries, delayMs): the retry loop over
verifyConnection; after an exhausted loop it executes `throw lastError`
without dereferencing it, so a run with an empty loop ends in threwNull. -/
def retryConnect (probe : Nat → Except JsError Unit) (maxRetries delayMs : Nat) :
    RetryTrace AppError Bool :=
  retryLoop RetryOutcome.threwNull (retryConnectOp probe) maxRetries delayMs

/-- config.firebase from config/index.js: the four credential fields,
each possibly undefined (sourced from environment variables). -/
structure FirebaseConfig where
  projectId : Option String
  clientEmail : Option String
  privateKey : Option String
  databaseURL : Option String
deriving DecidableEq, Repr

/-- Field lookup used by the `config.firebase[field]` accesses. -/
def fbField (cfg : FirebaseConfig) : String → Option String
  | "projectId" => cfg.projectId
  | "clientEmail" => cfg.clientEmail
  | "privateKey" => cfg.privateKey
  | "databaseURL" => cfg.databaseURL
  | _ => none

/-- The fixed list of required credential fields
(FirebaseService.initializeFirebase line 18). -/
def requiredFields : List String :=
  ["projectId", "clientEmail", "privateKey", "databaseURL"]

/-- The missing credential fields, as computed by
`requiredFields.filter(field => !config.firebase[field])`. -/
def missingFields (cfg : FirebaseConfig) : List String :=
  requiredFields.filter (fun f => isFalsy (fbField cfg f))

/-- The externally visible steps taken by initializeFirebase, in order. -/
inductive InitStep where
  | credentialsValidated
  | initializeApp
  | getFirestore
  | getAuth
  | setSettings
  | startRetryConnect
deriving DecidableEq, Repr

/-- Result of running FirebaseService.initializeFirebase.  `result` is
what the synchronous call returns or throws.  `steps` is the ordered list
of steps performed before returning.  `orphanRetry` is the eventual
outcome of the retryConnect(3, 5000) promise when one was launched:
the source calls `this.retryConnect(3, 5000)` WITHOUT await, so that
promise is never observed by initializeFirebase and its rejection, if
any, escapes the surrounding try/catch as an unhandled rejection. -/
structure InitResult where
  result : Except AppError Unit
  steps : List InitStep
  orphanRetry : Option (RetryTrace AppError Bool)
deriving Repr

/-- FirebaseService.initializeFirebase (src/unnamed/part_000 lines 14-60):
validate the credential bundle (throwing, via the catch-and-rewrap at
lines 53-59, AppError(500, "Échec de l'initialisation de Firebase",
innerMessage) where innerMessage names every missing field); otherwise
construct the client (initializeApp only when no app instance exists),
obtain firestore/auth handles, set ignoreUndefinedProperties, and launch
retryConnect(3, 5000) without awaiting it, then return normally. -/
def initializeFirebase (cfg : FirebaseConfig) (appsLength : Nat)
    (probe : Nat → Except JsError Unit) : InitResult :=
  let missing := missingFields cfg
  if missing.isEmpty then
    { result := Except.ok ()
      steps := [InitStep.credentialsValidated] ++
        (if appsLength = 0 then [InitStep.initializeApp] else []) ++
        [InitStep.getFirestore, InitStep.getAuth, InitStep.setSettings,
          InitStep.startRetryConnect]
      orphanRetry := some (retryConnect probe 3 5000) }
  else
    { result := Except.error
        ⟨500, "Échec de l'initialisation de Firebase",
          "Configuration credentials Firebase incomplète : " ++
            String.intercalate ", " missing ++ " manquant(s)"⟩
      steps := []
      orphanRetry := none }

/-- A Firestore field value: a server-assigned timestamp or a string. -/
inductive FieldVal where
  | serverTimestamp : FieldVal
  | str : String → FieldVal
deriving DecidableEq, BEq, Repr

/-- Observable events of the lifecycle handlers: document writes
(collection, document, fields), log lines, and process exit. -/
inductive Event where
  | updateDoc : String → String → List (String × FieldVal) → Event
  | setDocMerge : String → String → List (String × FieldVal) → Event
  | logInfo : String → Event
  | logError : String → Event
  | exit : Nat → Event
deriving DecidableEq, BEq, Repr

/-- The two termination signals; their handlers are textually identical. -/
inductive Sig where
  | sigterm
  | sigint
deriving DecidableEq, Repr

def signalName : Sig → String
  | Sig.sigterm => "SIGTERM"
  | Sig.sigint => "SIGINT"

/-- Whether the two store writes of the shutdown sequence resolve:
the status/api_status update, and the config/api merge set. -/
structure ShutdownOutcomes where
  apiStatusUpdateOk : Bool
  configSetOk : Bool
deriving DecidableEq, Repr

/-- The fields written to status/api_status by the shutdown handlers
(src/app.js lines 185-188): a last_stopped server timestamp and a
message string — note there is no status field at all. -/
def apiStatusStoppedFields : List (String × FieldVal) :=
  [("last_stopped", FieldVal.serverTimestamp),
   ("message", FieldVal.str "API stopped")]

/-- The fields merge-written to config/api by updateApiUrlInFirestore. -/
def configApiFields (url status env : String) : List (String × FieldVal) :=
  [("baseUrl", FieldVal.str url),
   ("status", FieldVal.str status),
   ("environment", FieldVal.str env),
   ("lastUpdated", FieldVal.serverTimestamp)]

/-- updateApiUrlInFirestore(url, status) from src/app.js lines 79-94: a
merge set of config/api; a rejection is caught, logged and swallowed, so
the function itself never throws. -/
def updateApiUrlInFirestore (url status env : String) (setOk : Bool) : List Event :=
  [Event.setDocMerge "config" "api" (configApiFields url status env)] ++
  (if setOk then
    [Event.logInfo ("API URL updated in Firestore: " ++ url)]
  else
    [Event.logError "Failed to update API URL in Firestore"])

/-- The shutdown sequence run by a signal handler once past the
isShuttingDown guard: log, try { await the status/api_status update; on
success await updateApiUrlInFirestore(url, "stopped") } catch { log the
error }, then process.exit(0).  A rejection of the api_status update
jumps to the catch, so the config/api publish is then never attempted. -/
def shutdownBody (s : Sig) (url env : String) (o : ShutdownOutcomes) : List Event :=
  [Event.logInfo ("Received " ++ signalName s ++ " signal. Shutting down server...")] ++
  [Event.updateDoc "status" "api_status" apiStatusStoppedFields] ++
  (if o.apiStatusUpdateOk then
    updateApiUrlInFirestore url "stopped" env o.configSetOk
  else
    [Event.logError "Error during Firestore shutdown"]) ++
  [Event.exit 0]

/-- A SIGTERM/SIGINT handler (src/app.js lines 180-210): the synchronous
prologue checks isShuttingDown and returns immediately when it is set,
otherwise sets it (both before any await) and runs the shutdown
sequence.  Returns the new flag and the events of this invocation. -/
def signalHandler (s : Sig) (isShuttingDown : Bool) (url env : String)
    (o : ShutdownOutcomes) : Bool × List Event :=
  if isShuttingDown then (isShuttingDown, [])
  else (true, shutdownBody s url env o)

/-- Two shutdown triggers in quick succession: the first handler starts
from a clear flag; the second trigger is delivered at suspension point
`k` of the first handler (its whole observable effect is its synchronous
prologue, since a set flag makes it return at once); the first handler
then completes.  The shutdown flag is the only state shared between the
two handlers, and the shutdown body never modifies it, so the flag the
second prologue reads is the one set by the first prologue regardless
of k. -/
def twoTriggersAt (k : Nat) (s1 s2 : Sig) (url env : String)
    (o1 o2 : ShutdownOutcomes) : List Event :=
  let h1 := signalHandler s1 false url env o1
  let h2 := signalHandler s2 h1.1 url env o2
  h1.2.take k ++ h2.2 ++ h1.2.drop k

/-- The uncaughtException handler (src/app.js lines 221-229): log, then
process.exit(1) only when the shutdown flag is not set.  It does not
modify the flag. -/
def onUncaughtException (isShuttingDown : Bool) (_errMsg : String) :
    Bool × List Event :=
  (isShuttingDown,
    [Event.logError "Uncaught Exception"] ++
      (if isShuttingDown then [] else [Event.exit 1]))

/-- The unhandledRejection handler (src/app.js lines 213-219): log only;
no exit and no state change. -/
def onUnhandledRejection (isShuttingDown : Bool) (_reason : String) :
    Bool × List Event :=
  (isShuttingDown, [Event.logError "Unhandled Promise Rejection"])

/-- Recogniser for a process-exit event. -/
def isExit : Event → Bool
  | Event.exit _ => true
  | _ => false

/-- Recogniser for an update of the status/api_status document. -/
def isApiStatusUpdate : Event → Bool
  | Event.updateDoc c d _ => c == "status" && d == "api_status"
  | _ => false

/-- Recogniser for a merge set of the config/api document. -/
def isConfigApiSet : Event → Bool
  | Event.setDocMerge c d _ => c == "config" && d == "api"
  | _ => false

/-- Recogniser for an update of status/api_status whose fields contain a
status field equal to "stopped". -/
def apiStatusWriteWithStoppedStatus : Event → Bool
  | Event.updateDoc c d fs =>
    c == "status" && d == "api_status" &&
      fs.contains ("status", FieldVal.str "stopped")
  | _ => false

/-! Concrete fixtures used by counterexamples and witnesses. -/

/-- An environment with every required variable set and nonempty. -/
def envAll : String → Option String := fun _ => some "x"

/-- An environment in which JWT_SECRET is absent. -/
def envMissingJwt : String → Option String :=
  fun v => if v = "JWT_SECRET" then none else some "x"

/-- A store on which both health-check operations always resolve. -/
def storeOk : HealthStore :=
  ⟨fun _ => Except.ok (), fun _ => Except.ok ["status"]⟩

/-- A connectivity probe that rejects on every attempt. -/
def probeFail : Nat → Except JsError Unit :=
  fun _ => Except.error ⟨"network unreachable"⟩

/-- A connectivity probe that resolves on every attempt. -/
def probeOk : Nat → Except JsError Unit := fun _ => Except.ok ()

/-- A complete credential bundle. -/
def goodCfg : FirebaseConfig := ⟨some "pid", some "em", some "key", some "url"⟩

/-- A credential bundle missing clientEmail (undefined) and privateKey
(empty string, also falsy). -/
def badCfg : FirebaseConfig := ⟨some "pid", none, some "", some "url"⟩

/-- An operation that fails on every attempt with the same error. -/
def alwaysFailOp : Nat → Except JsError Bool :=
  fun _ => Except.error ⟨"boom"⟩

/-- An operation that fails on attempts 1 and 2 and succeeds from 3 on. -/
def failTwiceOp : Nat → Except JsError Bool :=
  fun i => if i ≤ 2 then Except.error ⟨"boom"⟩ else Except.ok true

/-! Retry-loop lemmas. -/

/-- One-step unfolding of retryGo when attempts remain. -/
theorem retryGo_succ {E A : Type} (emptyOut : RetryOutcome E A)
    (op : Nat → Except E A) (D attempt r : Nat) (le : Option E) :
    retryGo emptyOut op D attempt (r + 1) le =
      match op attempt with
      | Except.ok a => ⟨RetryOutcome.success a, 1, []⟩
      | Except.error e =>
        let rest := retryGo emptyOut op D (attempt + 1) r (some e)
        ⟨rest.result, rest.invocations + 1,
          if 0 < r then D :: rest.delays else rest.delays⟩ := rfl

/-- With an operation failing on every attempt, the loop starting at
attempt a with r+1 attempts left performs r+1 invocations, awaits r
delays, and ends with the error of the last attempt a+r. -/
theorem retryGo_allFail {E A : Type} (emptyOut : RetryOutcome E A)
    (op : Nat → Except E A) (f : Nat → E) (D : Nat)
    (hop : ∀ i, op i = Except.error (f i)) :
    ∀ r a le, retryGo emptyOut op D a (r + 1) le =
      ⟨RetryOutcome.failure (f (a + r)), r + 1, List.replicate r D⟩ := by
  intro r
  induction r with
  | zero =>
    intro a le
    simp [retryGo, hop a]
  | succ r ih =>
    intro a le
    have hidx : a + 1 + r = a + (r + 1) := by omega
    have hrec := ih (a + 1) (some (f a))
    rw [hidx] at hrec
    rw [retryGo_succ, hop a]
    dsimp only
    rw [hrec]
    simp [List.replicate_succ]

/-- With an operation failing on attempts a..a+j-1 and succeeding at
attempt a+j, within budget, the loop returns the success after j+1
invocations and j delays. -/
theorem retryGo_firstOk {E A : Type} (emptyOut : RetryOutcome E A)
    (op : Nat → Except E A) (D : Nat) (v : A) :
    ∀ j r a le, j ≤ r → (∀ i, i < j → ∃ e, op (a + i) = Except.error e) →
      op (a + j) = Except.ok v →
      retryGo emptyOut op D a (r + 1) le =
        ⟨RetryOutcome.success v, j + 1, List.replicate j D⟩ := by
  intro j
  induction j with
  | zero =>
    intro r a le _ _ hok
    simp only [Nat.add_zero] at hok
    simp [retryGo, hok]
  | succ j ih =>
    intro r a le hjr hfail hok
    obtain ⟨e, he⟩ := hfail 0 (Nat.succ_pos j)
    simp only [Nat.add_zero] at he
    obtain ⟨r', rfl⟩ : ∃ r', r = r' + 1 := ⟨r - 1, by omega⟩
    have hfail' : ∀ i, i < j → ∃ e, op (a + 1 + i) = Except.error e := by
      intro i hi
      have hidx : a + (i + 1) = a + 1 + i := by omega
      have h := hfail (i + 1) (by omega)
      rwa [hidx] at h
    have hok' : op (a + 1 + j) = Except.ok v := by
      have hidx : a + (j + 1) = a + 1 + j := by omega
      rwa [hidx] at hok
    have hrec := ih r' (a + 1) (some e) (by omega) hfail' hok'
    rw [retryGo_succ, he]
    dsimp only
    rw [hrec]
    simp [List.replicate_succ]

/-- Once lastError holds an error, an exhausted loop ends settled
(success or failure), never in the null-lastError fallthrough. -/
theorem retryGo_some_settled {E A : Type} (emptyOut : RetryOutcome E A)
    (op : Nat → Except E A) (D : Nat) :
    ∀ r a e, (retryGo emptyOut op D a r (some e)).result.isSettled = true := by
  intro r
  induction r with
  | zero =>
    intro a e
    simp [retryGo, RetryOutcome.isSettled]
  | succ r ih =>
    intro a e
    cases hop : op a with
    | ok v => simp [retryGo, hop, RetryOutcome.isSettled]
    | error e' => simpa [retryGo, hop] using ih (a + 1) e'

/-- With at least one attempt, the retry loop ends settled: it either
returns the success or rethrows the last operation error. -/
theorem retryLoop_settled {E A : Type} (emptyOut : RetryOutcome E A)
    (op : Nat → Except E A) (N D : Nat) (hN : 1 ≤ N) :
    (retryLoop emptyOut op N D).result.isSettled = true := by
  obtain ⟨r, rfl⟩ : ∃ r, N = r + 1 := ⟨N - 1, by omega⟩
  cases hop : op 1 with
  | ok v => simp [retryLoop, retryGo, hop, RetryOutcome.isSettled]
  | error e =>
    simpa [retryLoop, retryGo, hop] using
      retryGo_some_settled emptyOut op D r 2 e

/-- C5: for every N ≥ 1 and delay D, the retry loop (the loop shared by
healthCheck and retryConnect) over an operation that fails on every
attempt performs exactly N invocations and exactly N−1 delays of D ms,
and then fails with the error thrown by the Nth (last) invocation,
discarding earlier attempts' errors. -/
theorem retryLoop_allFail {E A : Type} (emptyOut : RetryOutcome E A)
    (op : Nat → Except E A) (f : Nat → E) (N D : Nat) (hN : 1 ≤ N)
    (hop : ∀ i, op i = Except.error (f i)) :
    retryLoop emptyOut op N D =
      ⟨RetryOutcome.failure (f N), N, List.replicate (N - 1) D⟩ := by
  obtain ⟨r, rfl⟩ : ∃ r, N = r + 1 := ⟨N - 1, by omega⟩
  have h := retryGo_allFail emptyOut op f D hop r 1 none
  have hidx : 1 + r = r + 1 := by omega
  rw [hidx] at h
  simpa [retryLoop] using h

/-- Witness for C5: a concrete always-failing operation with N = 3,
D = 1000 gives 3 invocations, 2 delays and the final error. -/
theorem retryLoop_allFail_witness :
    retryLoop RetryOutcome.nullErrorDeref alwaysFailOp 3 1000 =
      ⟨RetryOutcome.failure ⟨"boom"⟩, 3, [1000, 1000]⟩ := by
  have h := retryLoop_allFail RetryOutcome.nullErrorDeref alwaysFailOp
    (fun _ => ⟨"boom"⟩) 3 1000 (by decide) (fun _ => rfl)
  simpa using h

/-- C6: for every N ≥ 1, delay D, and k < N, the retry loop (the loop
shared by healthCheck and retryConnect) over an operation that fails
exactly k times (attempts 1..k) and then succeeds at attempt k+1 returns
the success result, after exactly k+1 invocations of the operation and
exactly k delays of D ms. -/
theorem retryLoop_failThenOk {E A : Type} (emptyOut : RetryOutcome E A)
    (op : Nat → Except E A) (v : A) (N D k : Nat) (hk : k < N)
    (hfail : ∀ i, 1 ≤ i → i ≤ k → ∃ e, op i = Except.error e)
    (hok : op (k + 1) = Except.ok v) :
    retryLoop emptyOut op N D =
      ⟨RetryOutcome.success v, k + 1, List.replicate k D⟩ := by
  obtain ⟨r, rfl⟩ : ∃ r, N = r + 1 := ⟨N - 1, by omega⟩
  apply retryGo_firstOk emptyOut op D v k r 1 none (by omega)
  · intro i hi
    have h := hfail (1 + i) (by omega) (by omega)
    exact h
  · have hidx : 1 + k = k + 1 := by omega
    rw [hidx]
    exact hok

/-- Witness for C6: an operation failing on attempts 1 and 2 and
succeeding at attempt 3, with N = 3, D = 1000: success after 3
invocations and 2 delays. -/
theorem retryLoop_failThenOk_witness :
    retryLoop RetryOutcome.nullErrorDeref failTwiceOp 3 1000 =
      ⟨RetryOutcome.success true, 3, [1000, 1000]⟩ := by
  have h := retryLoop_failThenOk RetryOutcome.nullErrorDeref failTwiceOp true
    3 1000 2 (by decide)
    (fun i _ h2 => ⟨⟨"boom"⟩, by simp [failTwiceOp, if_pos h2]⟩)
    rfl
  simpa using h

/-- Counterexample for C2: with JWT_SECRET absent and a fully working
store, healthCheck(3, 5000) makes 3 attempts and awaits 2 delays of
5000 ms — not exactly one attempt with no retry and no delay as the
claim states. -/
theorem healthCheck_missingEnv_counterexample :
    (healthCheck envMissingJwt storeOk 3 5000).invocations = 3 ∧
    (healthCheck envMissingJwt storeOk 3 5000).delays = [5000, 5000] ∧
    ¬((healthCheck envMissingJwt storeOk 3 5000).invocations = 1 ∧
      (healthCheck envMissingJwt storeOk 3 5000).delays = []) := by
  exact ⟨rfl, rfl, fun h => absurd h.1 (by decide)⟩

/-- C2 (amended): when at least one required environment variable is
absent, every attempt of healthCheck fails with the configuration error
naming the missing variables, so the check is retried like any other
failure: maxRetries ≥ 1 attempts, maxRetries − 1 delays of delayMs, and
the final error is that configuration error. -/
theorem healthCheck_missingEnv_retries (env : String → Option String)
    (store : HealthStore) (N D : Nat) (hN : 1 ≤ N)
    (hmiss : missingVars env ≠ []) :
    healthCheck env store N D =
      ⟨RetryOutcome.failure
          ⟨"Missing environment variables: " ++
            String.intercalate ", " (missingVars env)⟩,
        N, List.replicate (N - 1) D⟩ := by
  apply retryLoop_allFail RetryOutcome.nullErrorDeref (healthCheckOp env store)
    (fun _ => ⟨"Missing environment variables: " ++
      String.intercalate ", " (missingVars env)⟩) N D hN
  intro i
  cases hmv : missingVars env with
  | nil => exact absurd hmv hmiss
  | cons x xs => simp [healthCheckOp, hmv]

/-- Witness for C2 (amended): the JWT_SECRET-less environment with
maxRetries = 3, delayMs = 5000. -/
theorem healthCheck_missingEnv_retries_witness :
    healthCheck envMissingJwt storeOk 3 5000 =
      ⟨RetryOutcome.failure ⟨"Missing environment variables: JWT_SECRET"⟩,
        3, [5000, 5000]⟩ := by
  have h := healthCheck_missingEnv_retries envMissingJwt storeOk 3 5000
    (by decide) (by decide)
  simpa using h

/-- C9: with maxRetries < 1 the retry loop body never executes and
neither loop reaches its intended success-or-last-error behaviour:
healthCheck ends by dereferencing the still-null lastError (reading
.message of null) and retryConnect ends by throwing null; for every
maxRetries ≥ 1 both loops end settled (success or rethrown operation
error), so the intended behaviour holds exactly under the precondition
maxRetries ≥ 1. -/
theorem healthCheck_zeroRetries (env : String → Option String)
    (store : HealthStore) (probe : Nat → Except JsError Unit)
    (D maxRetries : Nat) (h : maxRetries < 1) :
    healthCheck env store maxRetries D =
      ⟨RetryOutcome.nullErrorDeref, 0, []⟩ ∧
    retryConnect probe maxRetries D =
      ⟨RetryOutcome.threwNull, 0, []⟩ ∧
    ∀ N, 1 ≤ N →
      (healthCheck env store N D).result.isSettled = true ∧
      (retryConnect probe N D).result.isSettled = true := by
  obtain rfl : maxRetries = 0 := by omega
  refine ⟨rfl, rfl, fun N hN => ?_⟩
  exact ⟨retryLoop_settled _ _ N D hN, retryLoop_settled _ _ N D hN⟩

/-- Witness for C9: maxRetries = 0 with concrete environment, store and
probe: zero invocations, null-lastError fallthrough in both loops. -/
theorem healthCheck_zeroRetries_witness :
    healthCheck envAll storeOk 0 5000 =
      ⟨RetryOutcome.nullErrorDeref, 0, []⟩ ∧
    retryConnect probeOk 0 5000 = ⟨RetryOutcome.threwNull, 0, []⟩ := by
  have h := healthCheck_zeroRetries envAll storeOk probeOk 5000 0 (by decide)
  exact ⟨h.1, h.2.1⟩

/-- C7: for every credential bundle with missing required fields,
initializeFirebase throws an AppError before any client construction or
network call: its steps list is empty, no retryConnect probe is ever
launched, and the error carries (in its details, the message of the
inner configuration AppError rewrapped by the catch block) the full
comma-separated list of every missing field, not only the first. -/
theorem initializeFirebase_missingFields (cfg : FirebaseConfig)
    (appsLength : Nat) (probe : Nat → Except JsError Unit)
    (hmiss : missingFields cfg ≠ []) :
    (initializeFirebase cfg appsLength probe).result =
      Except.error
        ⟨500, "Échec de l'initialisation de Firebase",
          "Configuration credentials Firebase incomplète : " ++
            String.intercalate ", " (missingFields cfg) ++ " manquant(s)"⟩ ∧
    (initializeFirebase cfg appsLength probe).steps = [] ∧
    (initializeFirebase cfg appsLength probe).orphanRetry = none := by
  cases hm : missingFields cfg with
  | nil => exact absurd hm hmiss
  | cons x xs =>
    refine ⟨?_, ?_, ?_⟩ <;> simp [initializeFirebase, hm]

/-- Witness for C7: a bundle with clientEmail undefined and privateKey
empty: both are named in the propagated error, nothing else runs. -/
theorem initializeFirebase_missingFields_witness :
    (initializeFirebase badCfg 0 probeOk).result =
      Except.error
        ⟨500, "Échec de l'initialisation de Firebase",
          "Configuration credentials Firebase incomplète : clientEmail, privateKey manquant(s)"⟩ ∧
    (initializeFirebase badCfg 0 probeOk).steps = [] ∧
    (initializeFirebase badCfg 0 probeOk).orphanRetry = none := by
  have h := initializeFirebase_missingFields badCfg 0 probeOk (by decide)
  refine ⟨?_, h.2.1, h.2.2⟩
  have h1 := h.1
  simpa using h1

/-- C1 (code evaluated at the failing input): with a complete credential
bundle and a connectivity probe that rejects on all 3 attempts of
retryConnect(3, 5000), initializeFirebase nevertheless returns
successfully — because the source calls this.retryConnect(3, 5000)
without await, the rejection of the retry promise cannot be caught by
the surrounding try/catch and does not propagate out of initialization;
it surfaces as an unhandled rejection, and the unhandledRejection
handler in src/app.js only logs, performing no process exit. -/
theorem initializeFirebase_unawaitedRetryConnect :
    (initializeFirebase goodCfg 0 probeFail).result = Except.ok () ∧
    (initializeFirebase goodCfg 0 probeFail).orphanRetry =
      some ⟨RetryOutcome.failure
          ⟨500, "Impossible de se connecter à Firestore", "network unreachable"⟩,
        3, [5000, 5000]⟩ ∧
    InitStep.startRetryConnect ∈ (initializeFirebase goodCfg 0 probeFail).steps ∧
    onUnhandledRejection false "Impossible de se connecter à Firestore" =
      (false, [Event.logError "Unhandled Promise Rejection"]) ∧
    (onUnhandledRejection false "Impossible de se connecter à Firestore").2.countP
      isExit = 0 := by
  refine ⟨rfl, rfl, ?_, rfl, rfl⟩
  decide

/-! Shutdown-handler lemmas. -/

/-- The shutdown sequence, for every signal and every combination of
store-write outcomes, starts exactly one status/api_status update,
performs exactly one process exit, and ends with exit code 0. -/
theorem shutdownBody_counts (s : Sig) (url env : String) (o : ShutdownOutcomes) :
    (shutdownBody s url env o).countP isApiStatusUpdate = 1 ∧
    (shutdownBody s url env o).countP isExit = 1 ∧
    (shutdownBody s url env o).getLast? = some (Event.exit 0) := by
  obtain ⟨a, c⟩ := o
  cases s <;> cases a <;> cases c <;> exact ⟨rfl, rfl, rfl⟩

/-- Counterexample for C3: in the graceful shutdown triggered by SIGTERM
while RUNNING, with both store writes succeeding, no write to the
status/api_status document contains a status field equal to "stopped"
(the handler writes only last_stopped and message there), refuting the
claim that api_status receives a write containing status="stopped". -/
theorem sigterm_apiStatus_noStoppedStatusField :
    ((signalHandler Sig.sigterm false "http://localhost:4000" "production"
        ⟨true, true⟩).2.countP apiStatusWriteWithStoppedStatus = 0) ∧
    ((signalHandler Sig.sigterm false "http://localhost:4000" "production"
        ⟨true, true⟩).2.countP isApiStatusUpdate = 1) := by
  exact ⟨rfl, rfl⟩

/-- C3 (amended): upon a graceful termination signal (SIGTERM or SIGINT)
while RUNNING, with the store writes succeeding, the status/api_status
document receives an update containing a last_stopped server timestamp
and message "API stopped" (no status field), the config/api document
receives a merge write containing status="stopped", and the process
exits with code 0 (the handler performs exactly one exit, as its final
action). -/
theorem gracefulShutdown_writes (s : Sig) (url env : String) :
    Event.updateDoc "status" "api_status" apiStatusStoppedFields ∈
      (signalHandler s false url env ⟨true, true⟩).2 ∧
    Event.setDocMerge "config" "api" (configApiFields url "stopped" env) ∈
      (signalHandler s false url env ⟨true, true⟩).2 ∧
    ("status", FieldVal.str "stopped") ∈ configApiFields url "stopped" env ∧
    (signalHandler s false url env ⟨true, true⟩).2.getLast? =
      some (Event.exit 0) ∧
    (signalHandler s false url env ⟨true, true⟩).2.countP isExit = 1 := by
  refine ⟨?_, ?_, ?_, ?_, ?_⟩ <;>
    cases s <;>
    simp [signalHandler, shutdownBody, updateApiUrlInFirestore, configApiFields,
      apiStatusStoppedFields, isExit, List.countP_cons, List.getLast?]

/-- C4: for every pair of shutdown triggers in quick succession — any
combination of the two signals, the second delivered at any suspension
point k of the first handler, before its exit — exactly one
status/api_status "stopped" write sequence is started and exactly one
process exit is performed: the isShuttingDown flag is checked and set in
the synchronous prologue, before any await, so the second handler
returns immediately. -/
theorem twoTriggers_singleShutdown (k : Nat) (s1 s2 : Sig) (url env : String)
    (o1 o2 : ShutdownOutcomes) :
    (twoTriggersAt k s1 s2 url env o1 o2).countP isApiStatusUpdate = 1 ∧
    (twoTriggersAt k s1 s2 url env o1 o2).countP isExit = 1 := by
  have hb := shutdownBody_counts s1 url env o1
  have hsplit : twoTriggersAt k s1 s2 url env o1 o2 =
      (shutdownBody s1 url env o1).take k ++ [] ++
        (shutdownBody s1 url env o1).drop k := by
    simp [twoTriggersAt, signalHandler]
  constructor <;> rw [hsplit, List.append_nil, List.take_append_drop]
  · exact hb.1
  · exact hb.2.1

/-- C8: an uncaught synchronous exception while RUNNING (flag unset)
logs and exits with code 1; if the process is already SHUTTING_DOWN it
logs and performs no exit; an unhandled promise rejection is only
logged — it never exits and never changes the shutdown flag. -/
theorem uncaughtFault_exitPolicy (msg reason : String) (flag : Bool) :
    (onUncaughtException false msg).2 =
      [Event.logError "Uncaught Exception", Event.exit 1] ∧
    (onUncaughtException true msg).2 = [Event.logError "Uncaught Exception"] ∧
    (onUncaughtException flag msg).1 = flag ∧
    onUnhandledRejection flag reason =
      (flag, [Event.logError "Unhandled Promise Rejection"]) := by
  cases flag <;> exact ⟨rfl, rfl, rfl, rfl⟩

/-- C10: in each signal-driven shutdown handler run from the RUNNING
state, if the status/api_status "stopped" update rejects then the
config/api publish is never attempted (zero config/api merge writes
occur), the error is logged, and — for every combination of write
outcomes — the handler still ends in exactly one process exit with
code 0, as its final action. -/
theorem shutdown_sequentialDependentWrites (s : Sig) (url env : String)
    (configOk : Bool) (o : ShutdownOutcomes) :
    ((signalHandler s false url env ⟨false, configOk⟩).2.countP isConfigApiSet
      = 0) ∧
    Event.logError "Error during Firestore shutdown" ∈
      (signalHandler s false url env ⟨false, configOk⟩).2 ∧
    (signalHandler s false url env o).2.getLast? = some (Event.exit 0) ∧
    (signalHandler s false url env o).2.countP isExit = 1 := by
  obtain ⟨a, c⟩ := o
  refine ⟨?_, ?_, ?_, ?_⟩ <;>
    cases s <;> cases a <;> cases c <;> cases configOk <;>
    first
      | rfl
      | simp [signalHandler, shutdownBody, updateApiUrlInFirestore]
